import Mathlib

/-!
Shallow embedding of the multi-modal deepfake-detection core of the
anohra.com backend (src/backend/models/audio_detector.py,
image_detector.py, deepfake_detector.py), over exact rational arithmetic.

Library calls made by the detectors (numpy FFT magnitudes, numpy std,
numpy log, cv2 pixel statistics, the cascade face detector) are modelled
as explicit parameters or as pre-extracted per-image / per-face feature
fields, constrained by validity predicates recording their a-priori
guarantees (non-negativity of variances, edge densities in [0,1],
correlation coefficients in [-1,1], and so on).  All arithmetic the
repository itself performs is translated literally.
-/

namespace Anohra

/-- Arithmetic mean of a list of rationals, as computed by numpy mean:
sum divided by length (the value on the empty list is irrelevant: every
use in the detectors is guarded by a nonemptiness check). -/
def npMean (xs : List ℚ) : ℚ := xs.sum / (xs.length : ℚ)

/-- Population variance, as computed by numpy var (ddof = 0): mean of the
squared deviations from the mean. -/
def npVar (xs : List ℚ) : ℚ := npMean (xs.map (fun x => (x - npMean xs) ^ 2))

/-- Maximum of a list, as numpy max on a nonempty array. -/
def npMax : List ℚ → ℚ
  | [] => 0
  | x :: rest => rest.foldl max x

/-- Minimum of a list, as numpy min on a nonempty array. -/
def npMin : List ℚ → ℚ
  | [] => 0
  | x :: rest => rest.foldl min x

/-- Helper for `npArgmax`: scan with current best index and value; numpy
argmax keeps the earlier index on ties (strict improvement only). -/
def argmaxFrom : List ℚ → ℕ → ℕ → ℚ → ℕ
  | [], _, best, _ => best
  | x :: rest, i, best, bestVal =>
      if bestVal < x then argmaxFrom rest (i + 1) i x
      else argmaxFrom rest (i + 1) best bestVal

/-- Index of the first occurrence of the maximum, as numpy argmax. -/
def npArgmax : List ℚ → ℕ
  | [] => 0
  | x :: rest => argmaxFrom rest 1 0 x

/-- Target sample rate of `AudioDeepfakeDetector` (audio_detector.py line 13). -/
def sampleRate : ℕ := 16000

/-- The numpy routines the audio detector calls whose exact values are not
rational-arithmetic computations of the repository itself: the magnitude
spectrum `np.abs(np.fft.fft(x))[:len(x)//2]` and the population standard
deviation `np.std` (a square root, hence irrational in general). -/
structure AudioLib where
  fftMag : List ℚ → List ℚ
  std : List ℚ → ℚ

/-- Facts guaranteed by the real numpy implementations: the half-spectrum
has `n / 2` entries, magnitudes are non-negative, the spectrum of the
zero signal is zero, standard deviations are non-negative and vanish on
constant arrays. -/
def AudioLib.Valid (L : AudioLib) : Prop :=
  (∀ xs : List ℚ, (L.fftMag xs).length = xs.length / 2) ∧
  (∀ xs : List ℚ, ∀ m ∈ L.fftMag xs, 0 ≤ m) ∧
  (∀ n : ℕ, L.fftMag (List.replicate n 0) = List.replicate (n / 2) 0) ∧
  (∀ xs : List ℚ, 0 ≤ L.std xs) ∧
  (∀ (n : ℕ) (c : ℚ), L.std (List.replicate n c) = 0)

/-- A concrete `AudioLib` instance used to instantiate closed statements.
It agrees with numpy on every input actually used by those statements
(zero signals and constant segments). -/
def trivAudioLib : AudioLib :=
  ⟨fun xs => List.replicate (xs.length / 2) 0, fun _ => 0⟩

/-- Spectral centroid (audio_detector.py line 112):
`np.sum(magnitude * freqs) / (np.sum(magnitude) + 1e-6)`. -/
def spectralCentroid (magnitude freqs : List ℚ) : ℚ :=
  (List.zipWith (fun m f => m * f) magnitude freqs).sum /
    (magnitude.sum + 1 / 1000000)

/-- Spectral rolloff (audio_detector.py lines 115-117): frequency at the
first index where the cumulative magnitude reaches 85% of the total,
0 if no index qualifies. -/
def spectralRolloff (magnitude freqs : List ℚ) : ℚ :=
  (((List.range magnitude.length).find?
      (fun k => decide (0.85 * magnitude.sum ≤ (magnitude.take (k + 1)).sum))).map
    (fun k => freqs.getD k 0)).getD 0

/-- Positive-frequency bins `np.fft.fftfreq(n, 1/16000)[:n//2]`
(audio_detector.py line 109): bin `k` is `k * 16000 / n`. -/
def audioFreqs (n : ℕ) : List ℚ :=
  (List.range (n / 2)).map (fun k : ℕ => (sampleRate : ℚ) * (k : ℚ) / (n : ℚ))

/-- `AudioDeepfakeDetector._spectral_analysis` (audio_detector.py lines
99-131).  An empty half-spectrum (signal shorter than 2 samples) makes
`cumsum[-1]` raise, which the method catches, returning 0.3. -/
def spectralAnalysis (L : AudioLib) (audio : List ℚ) : ℚ :=
  let magnitude := L.fftMag audio
  if magnitude = [] then 0.3
  else
    let freqs := audioFreqs audio.length
    let centroidDeviation := |spectralCentroid magnitude freqs - 1500| / 1500
    let rolloffDeviation := |spectralRolloff magnitude freqs - 4000| / 4000
    min 1 (centroidDeviation * 0.5 + rolloffDeviation * 0.5)

/-- Energies of consecutive length-`flen` frames, mirroring the loop
`for i in range(0, len(audio) - frame_length, frame_length)`:
the number of iterations of that Python range is `(len - 1) / flen`
in natural division. -/
def frameEnergies (audio : List ℚ) (flen : ℕ) : List ℚ :=
  (List.range ((audio.length - 1) / flen)).map
    (fun i => (((audio.drop (i * flen)).take flen).map (fun x => x ^ 2)).sum)

/-- `AudioDeepfakeDetector._temporal_analysis` (audio_detector.py lines
133-164): variance of absolute frame-to-frame energy deltas over 10 ms
frames, normalized by mean energy, capped at 1; fallback 0.3 with fewer
than two frames. -/
def temporalAnalysis (audio : List ℚ) : ℚ :=
  let energies := frameEnergies audio (sampleRate / 100)
  if 1 < energies.length then
    let diffs := List.zipWith (fun a b => |b - a|) energies (energies.drop 1)
    min 1 (npVar diffs / (npMean energies + 1 / 1000000))
  else 0.3

/-- The `i`-th 2-second segment `audio[start:end]` taken by
`_voice_consistency_check` (audio_detector.py lines 180-183). -/
def audioSegment (audio : List ℚ) (i : ℕ) : List ℚ :=
  (audio.drop (i * (sampleRate * 2))).take (sampleRate * 2)

/-- `AudioDeepfakeDetector._voice_consistency_check` (audio_detector.py
lines 166-206): 2-second segments, per-segment features
`[mean, std, mean square]`, cross-segment std per feature column,
consistency = 1 - mean of those stds, piecewise score. -/
def voiceConsistencyCheck (L : AudioLib) (audio : List ℚ) : ℚ :=
  let num := audio.length / (sampleRate * 2)
  if num < 2 then 0.3
  else
    let features := (List.range num).map (fun i =>
      [npMean (audioSegment audio i), L.std (audioSegment audio i),
        npMean ((audioSegment audio i).map (fun x => x ^ 2))])
    let featureStds := (List.range 3).map
      (fun j => L.std (features.map (fun f => f.getD j 0)))
    let consistency := 1 - npMean featureStds
    if 0.95 < consistency then min 1 consistency
    else max 0 ((consistency - 0.7) * 2)

/-- The specification text of the voice-consistency rule, written from
the spec's own words for comparison with the source translation: split
into 2 s segments, fewer than two whole segments gives fallback 0.3,
otherwise consistency is one minus the mean cross-segment standard
deviation of the (mean, std, mean-square energy) features and the score
is consistency when above 0.95, else `max 0 ((consistency - 0.7) * 2)`. -/
def voiceConsistencySpec (L : AudioLib) (audio : List ℚ) : ℚ :=
  let num := audio.length / (sampleRate * 2)
  if num < 2 then 0.3
  else
    let means := (List.range num).map (fun i => npMean (audioSegment audio i))
    let stds := (List.range num).map (fun i => L.std (audioSegment audio i))
    let energies := (List.range num).map
      (fun i => npMean ((audioSegment audio i).map (fun x => x ^ 2)))
    let consistency := 1 - (L.std means + L.std stds + L.std energies) / 3
    if 0.95 < consistency then consistency
    else max 0 ((consistency - 0.7) * 2)

/-- Autocorrelation lags 0..n-1, i.e.
`np.correlate(frame, frame, mode=full)[len//2:]`. -/
def autocorrSlice (frame : List ℚ) : List ℚ :=
  (List.range frame.length).map (fun k =>
    (List.zipWith (fun a b => a * b) frame (frame.drop k)).sum)

/-- Pitch candidates accepted by `_prosody_analysis` (audio_detector.py
lines 212-232): per 20 ms frame, first autocorrelation peak past lag 20,
kept when the implied pitch is strictly between 50 and 500 Hz. -/
def pitchTrack (audio : List ℚ) : List ℚ :=
  let flen := sampleRate / 50
  (List.range ((audio.length - 1) / flen)).filterMap (fun i =>
    let frame := (audio.drop (i * flen)).take flen
    let ac := autocorrSlice frame
    if 20 < ac.length then
      let peaks := ac.drop 20
      if peaks ≠ [] ∧ 0 < npMax peaks then
        let peakIdx := npArgmax peaks + 20
        let pitch := if 0 < peakIdx then (sampleRate : ℚ) / peakIdx else 0
        if 50 < pitch ∧ pitch < 500 then some pitch else none
      else none
    else none)

/-- `AudioDeepfakeDetector._prosody_analysis` (audio_detector.py lines
208-253): fallback 0.3 with fewer than 10 accepted pitch estimates, else
weighted deviation of pitch variance and pitch range from the
natural-speech references 300 and 150. -/
def prosodyAnalysis (audio : List ℚ) : ℚ :=
  let pt := pitchTrack audio
  if pt.length < 10 then 0.3
  else
    let pitchVariance := npVar pt
    let pitchRange := npMax pt - npMin pt
    min 1 (|pitchVariance - 300| / 300) * 0.5 +
      min 1 (|pitchRange - 150| / 150) * 0.5

/-- `AudioDeepfakeDetector._classify_audio_type` (audio_detector.py lines
255-264). -/
def classifyAudioType (spectral consistency : ℚ) : String :=
  if 0.75 < consistency then "voice_cloning"
  else if 0.65 < spectral then "synthesized_speech"
  else if 0.45 < spectral ∨ 0.45 < consistency then "edited"
  else "authentic"

/-- Weighted fusion of the four audio sub-scores (audio_detector.py lines
33-38). -/
def audioOverall (spectral temporal voice prosody : ℚ) : ℚ :=
  spectral * 0.3 + temporal * 0.3 + voice * 0.2 + prosody * 0.2

/-- The audio output record (audio_detector.py lines 43-59), minus the
explanation and formatted-duration strings, which no numeric field
depends on. -/
structure AudioResult where
  isDeepfake : Bool
  isVoiceCloned : Bool
  confidence : ℚ
  manipulationType : String
  spectralScore : ℚ
  temporalScore : ℚ
  voiceScore : ℚ
  prosodyScore : ℚ
  deriving DecidableEq

/-- Fusion and verdict construction of `AudioDeepfakeDetector.analyze`
(audio_detector.py lines 32-59) as a function of the four sub-scores. -/
def audioCombine (spectral temporal voice prosody : ℚ) : AudioResult :=
  let overall := audioOverall spectral temporal voice prosody
  { isDeepfake := decide (0.55 < overall)
    isVoiceCloned := decide (0.7 < voice)
    confidence := min 0.98 overall
    manipulationType := classifyAudioType spectral voice
    spectralScore := spectral
    temporalScore := temporal
    voiceScore := voice
    prosodyScore := prosody }

/-- Outcome of a detector entry point: a result record, or the error
dictionary `returned by the except branch, carrying the exception
message together with the literal fields is_deepfake and confidence it
is constructed with. -/
inductive AnalyzeOutcome (α : Type) : Type where
  | ok : α → AnalyzeOutcome α
  | err : String → Bool → ℚ → AnalyzeOutcome α
  deriving DecidableEq

/-- `AudioDeepfakeDetector.analyze` (audio_detector.py lines 15-66).  The
argument is the value returned by `_load_audio` (`none` when both the
wave parse and the raw fallback fail); a missing or empty waveform
raises, and the handler returns the error record. -/
def audioAnalyze (L : AudioLib) (loaded : Option (List ℚ)) :
    AnalyzeOutcome AudioResult :=
  match loaded with
  | none => .err "Could not load audio file" false 0
  | some audio =>
      if audio.length = 0 then .err "Could not load audio file" false 0
      else
        .ok (audioCombine (spectralAnalysis L audio) (temporalAnalysis audio)
          (voiceConsistencyCheck L audio) (prosodyAnalysis audio))

/-- Wave-file contents as obtained by the `wave` module in `_load_audio`
(audio_detector.py lines 68-97): frame rate, sample width in bytes, and
the decoded integer samples (int16 values when the width is 2, unsigned
byte values otherwise). -/
structure WaveFile where
  frameRate : ℕ
  sampWidth : ℕ
  samples : List ℤ
  deriving DecidableEq

/-- The strided slice `xs[::s]` used for resampling. -/
def everyNth (xs : List ℚ) (s : ℕ) : List ℚ :=
  (List.range ((xs.length + s - 1) / s)).map (fun i => xs.getD (i * s) 0)

/-- The wave branch of `AudioDeepfakeDetector._load_audio`
(audio_detector.py lines 71-90): divide by the dtype maximum (32767 for
int16, 255 for uint8), then decimate when the source rate differs from
16 kHz. -/
def loadAudio (w : WaveFile) : List ℚ :=
  let normed : List ℚ :=
    if w.sampWidth = 2 then w.samples.map (fun x : ℤ => (x : ℚ) / 32767)
    else w.samples.map (fun x : ℤ => (x : ℚ) / 255)
  if w.frameRate ≠ sampleRate then
    everyNth normed (max 1 (w.frameRate / sampleRate))
  else normed

/-- Face rectangle returned by the cascade detector in
`ImageDeepfakeDetector._face_manipulation_check`, with the mean of the
four 5-pixel edge-strip variances the method computes on it. -/
structure ImgFace where
  w : ℕ
  h : ℕ
  edgeVar : ℚ
  deriving DecidableEq

/-- Per-image statistics delivered by the cv2 / numpy library calls the
image detector makes, on which the repository's own arithmetic operates:
Laplacian variance and Canny edge density (`_pixel_level_analysis`),
mean per-channel colour variance (used by both `_pixel_level_analysis`
and `_detect_ai_generated`), mean high- and low-frequency magnitudes of
the shifted 2-D FFT (`_frequency_domain_analysis`), residual-noise
variance after the Gaussian blur, the block-to-neighbour correlation
coefficients collected on the sampling grid, the 8x8 block-boundary
discontinuities (empty grid when the image is smaller than 16 pixels in
either direction, recorded by `small`), the detected faces, and the
metadata suspicion flag. -/
structure ImageData where
  lapVar : ℚ
  edgeDensity : ℚ
  colorVar : ℚ
  highFreq : ℚ
  lowFreq : ℚ
  noiseVar : ℚ
  blockCorrs : List ℚ
  small : Bool
  jpegDiscs : List ℚ
  faces : List ImgFace
  metaSuspicious : Bool
  deriving DecidableEq

/-- A-priori guarantees of the library values in `ImageData`: variances
are non-negative, an edge density is a fraction of pixels, correlation
coefficients lie in [-1,1], block discontinuities are means of absolute
values, edge-strip variances are non-negative. -/
def ImageData.Valid (d : ImageData) : Prop :=
  0 ≤ d.lapVar ∧ 0 ≤ d.edgeDensity ∧ d.edgeDensity ≤ 1 ∧ 0 ≤ d.colorVar ∧
  0 ≤ d.noiseVar ∧ (∀ c ∈ d.blockCorrs, |c| ≤ 1) ∧
  (∀ x ∈ d.jpegDiscs, 0 ≤ x) ∧ (∀ f ∈ d.faces, 0 ≤ f.edgeVar)

/-- `ImageDeepfakeDetector._pixel_level_analysis` (image_detector.py
lines 74-102). -/
def pixelLevelAnalysis (d : ImageData) : ℚ :=
  let smoothness := 1 - min 1 (d.lapVar / 1000)
  let colorScore := min 1 (|d.colorVar - 500| / 500)
  min 1 (smoothness * 0.4 + colorScore * 0.3 + (1 - d.edgeDensity) * 0.3)

/-- `ImageDeepfakeDetector._frequency_domain_analysis` (image_detector.py
lines 104-137); `lg` stands for the numpy natural logarithm. -/
def frequencyDomainAnalysis (lg : ℚ → ℚ) (d : ImageData) : ℚ :=
  let freqRatio := d.highFreq / (d.lowFreq + 1 / 1000000)
  min 1 (|lg (freqRatio + 1 / 1000000)| / 2)

/-- `ImageDeepfakeDetector._detect_jpeg_artifacts` (image_detector.py
lines 223-248). -/
def detectJpegArtifacts (d : ImageData) : ℚ :=
  if d.small then 0.3
  else
    let avg := if d.jpegDiscs = [] then 0 else npMean d.jpegDiscs
    min 1 (avg / 5)

/-- `ImageDeepfakeDetector._detect_ai_generated` (image_detector.py lines
172-221). -/
def detectAiGenerated (d : ImageData) : ℚ :=
  let noiseScore := min 1 (d.noiseVar / 50)
  let avgSimilarity :=
    if d.blockCorrs = [] then 0.3 else npMean (d.blockCorrs.map (fun c => |c|))
  let colorScore := min 1 (d.colorVar / 1000)
  let jpegArtifacts := detectJpegArtifacts d
  min 1 (noiseScore * 0.25 + avgSimilarity * 0.30 + colorScore * 0.25 +
    jpegArtifacts * 0.20)

/-- `ImageDeepfakeDetector._face_manipulation_check` (image_detector.py
lines 250-286): 0.2 with no detected face, otherwise the mean over faces
larger than 20x20 of `max 0 (1 - edgeVar / 500)`, 0.3 when no face is
that large. -/
def faceManipulationCheck (d : ImageData) : ℚ :=
  if d.faces = [] then 0.2
  else
    let scores := (d.faces.filter (fun f => decide (20 < f.w) && decide (20 < f.h))).map
      (fun f => max 0 (1 - f.edgeVar / 500))
    if scores = [] then 0.3 else npMean scores

/-- `ImageDeepfakeDetector._classify_image_type` (image_detector.py lines
288-297). -/
def classifyImageType (pixelScore aiScore faceScore : ℚ) : String :=
  if 0.7 < aiScore then "ai_generated"
  else if 0.65 < faceScore then "face_manipulation"
  else if 0.65 < pixelScore then "edited"
  else "authentic"

/-- Weighted fusion of the image sub-scores (image_detector.py lines
38-43). -/
def imageOverall (pixel freq ai face : ℚ) : ℚ :=
  pixel * 0.25 + freq * 0.25 + ai * 0.30 + face * 0.20

/-- The image output record (image_detector.py lines 48-65), minus the
explanation and formatting strings. -/
structure ImageResult where
  isDeepfake : Bool
  isAiGenerated : Bool
  confidence : ℚ
  manipulationType : String
  pixelScore : ℚ
  frequencyScore : ℚ
  aiScore : ℚ
  faceScore : ℚ
  metadataSuspicious : Bool
  deriving DecidableEq

/-- Fusion and verdict construction of `ImageDeepfakeDetector.analyze`
(image_detector.py lines 37-65) as a function of the sub-scores. -/
def imageCombine (pixel freq ai face : ℚ) (meta : Bool) : ImageResult :=
  let overall := imageOverall pixel freq ai face
  { isDeepfake := decide (0.60 < overall)
    isAiGenerated := decide (0.65 < ai)
    confidence := min 0.98 overall
    manipulationType := classifyImageType pixel ai face
    pixelScore := pixel
    frequencyScore := freq
    aiScore := ai
    faceScore := face
    metadataSuspicious := meta }

/-- `ImageDeepfakeDetector.analyze` (image_detector.py lines 21-72).  The
argument models `Image.open(image_path).convert(RGB)` plus the feature
extraction: a decode failure carries the raised message, which the
handler turns into the error record. -/
def imageAnalyze (lg : ℚ → ℚ) (loaded : Except String ImageData) :
    AnalyzeOutcome ImageResult :=
  match loaded with
  | .error msg => .err msg false 0
  | .ok d =>
      .ok (imageCombine (pixelLevelAnalysis d) (frequencyDomainAnalysis lg d)
        (detectAiGenerated d) (faceManipulationCheck d) d.metaSuspicious)

/-- A face region detected in a sampled video frame, with the library
statistics the three per-face extractors of `DeepfakeDetector` read:
`empty` models `face.size == 0`, `lapVar` the Laplacian variance of the
gray face (computed identically by `_analyze_face` and
`_detect_artifacts`), `edgeDensity` the Canny edge fraction, `hueVar`
the hue-channel variance, `small` whether the face is below 16 pixels in
either direction (skipping the blocking check), `blockDiffs` the 8- and
16-pixel block-boundary discontinuities, and `highFreq` / `lowFreq` the
mean DFT magnitudes outside / inside the central radius. -/
structure VFace where
  empty : Bool
  lapVar : ℚ
  edgeDensity : ℚ
  hueVar : ℚ
  small : Bool
  blockDiffs : List ℚ
  highFreq : ℚ
  lowFreq : ℚ
  deriving DecidableEq

/-- A-priori guarantees of the library statistics for a face region. -/
def VFace.Valid (f : VFace) : Prop :=
  0 ≤ f.lapVar ∧ 0 ≤ f.edgeDensity ∧ f.edgeDensity ≤ 1

/-- One sampled frame: its detected faces, and the mean absolute
grayscale difference `tdiff` to the previous sampled frame (read by the
temporal-consistency check for every sampled frame after the first). -/
structure VFrame where
  faces : List VFace
  tdiff : ℚ
  deriving DecidableEq

/-- A successfully opened video: container frame count, frame rate, and
the sequence of sampled frames the analysis loop visits. -/
structure VideoData where
  frameCount : ℕ
  fps : ℚ
  frames : List VFrame
  deriving DecidableEq

/-- `DeepfakeDetector._analyze_face` (deepfake_detector.py lines
129-162). -/
def analyzeFace (f : VFace) : ℚ :=
  if f.empty then 0.3
  else
    let smoothnessScore := 1 - min 1 (f.lapVar / 500)
    let edgeScore :=
      if f.edgeDensity < 0.15 then 1 - f.edgeDensity else f.edgeDensity
    let colorScore := min 1 (|f.hueVar - 20| / 20)
    min 1 (smoothnessScore * 0.4 + edgeScore * 0.3 + colorScore * 0.3)

/-- `DeepfakeDetector._check_blocking_artifacts` (deepfake_detector.py
lines 193-218). -/
def checkBlockingArtifacts (f : VFace) : ℚ :=
  if f.blockDiffs = [] then 0 else min 1 (npMean f.blockDiffs / 10)

/-- `DeepfakeDetector._detect_artifacts` (deepfake_detector.py lines
164-191). -/
def detectArtifacts (f : VFace) : ℚ :=
  if f.empty then 0.3
  else
    let blockScore := if f.small then 0 else checkBlockingArtifacts f
    min 1 (f.lapVar / 1000 * 0.6 + blockScore * 0.4)

/-- `DeepfakeDetector._detect_compression_artifacts` (deepfake_detector.py
lines 220-251); `lg` stands for the numpy natural logarithm. -/
def detectCompressionArtifacts (lg : ℚ → ℚ) (f : VFace) : ℚ :=
  if f.empty then 0.3
  else
    let ratio := f.highFreq / (f.lowFreq + 1 / 1000000)
    min 1 |lg (ratio + 1 / 1000000)|

/-- `DeepfakeDetector._compute_temporal_consistency` (deepfake_detector.py
lines 253-268) applied to the stored mean frame difference. -/
def temporalConsistency (tdiff : ℚ) : ℚ := min 1 (tdiff / 50)

/-- The per-face anomaly scores accumulated by the `analyze_video` loop
(deepfake_detector.py lines 59-66), in visit order. -/
def videoAnomalyScores (frames : List VFrame) : List ℚ :=
  (frames.map (fun fr => fr.faces.map analyzeFace)).flatten

/-- The per-face compression scores accumulated by the loop
(deepfake_detector.py lines 73-75). -/
def videoCompressionScores (lg : ℚ → ℚ) (frames : List VFrame) : List ℚ :=
  (frames.map (fun fr => fr.faces.map (detectCompressionArtifacts lg))).flatten

/-- Number of entries appended to `face_inconsistencies`
(deepfake_detector.py lines 68-71 and 77-81): one per face whose
artifact score exceeds 0.5, plus one per sampled frame after the first
whose temporal inconsistency exceeds 0.6.  A single frame can therefore
contribute several entries. -/
def videoFlagCount (frames : List VFrame) : ℕ :=
  (frames.map
    (fun fr => (fr.faces.filter (fun f => decide (0.5 < detectArtifacts f))).length)).sum +
  ((frames.drop 1).filter
    (fun fr => decide (0.6 < temporalConsistency fr.tdiff))).length

/-- `avg_anomaly` (deepfake_detector.py line 91). -/
def videoAvgAnomaly (frames : List VFrame) : ℚ :=
  let scores := videoAnomalyScores frames
  if scores = [] then 0.3 else npMean scores

/-- `temporal_inconsistency` (deepfake_detector.py line 92): flagged-event
count over `max 1 frames_analyzed`. -/
def videoTemporalInconsistency (frames : List VFrame) : ℚ :=
  (videoFlagCount frames : ℚ) / ((max 1 frames.length : ℕ) : ℚ)

/-- `avg_compression` (deepfake_detector.py line 93). -/
def videoAvgCompression (lg : ℚ → ℚ) (frames : List VFrame) : ℚ :=
  let scores := videoCompressionScores lg frames
  if scores = [] then 0.3 else npMean scores

/-- Weighted fusion of the video sub-scores (deepfake_detector.py lines
96-100). -/
def videoOverall (anomaly temporal compression : ℚ) : ℚ :=
  anomaly * 0.4 + temporal * 0.35 + compression * 0.25

/-- `DeepfakeDetector._classify_manipulation` (deepfake_detector.py lines
270-281). -/
def classifyManipulation (anomaly temporal compression : ℚ) : String :=
  if 0.7 < anomaly ∧ 0.4 < temporal then "face_swap"
  else if 0.5 < temporal then "lip_sync"
  else if 0.6 < anomaly then "face_reenactment"
  else if 0.6 < compression then "ai_generated"
  else "none"

/-- The video output record (deepfake_detector.py lines 106-120), minus
the explanation and formatting strings. -/
structure VideoResult where
  isDeepfake : Bool
  confidence : ℚ
  manipulationType : String
  framesAnalyzed : ℕ
  anomalyScore : ℚ
  temporalInconsistency : ℚ
  compressionArtifacts : ℚ
  faceInconsistencies : ℕ
  deriving DecidableEq

/-- Fusion and verdict construction of `analyze_video` (deepfake_detector.py
lines 90-120). -/
def videoCombine (anomaly temporal compression : ℚ)
    (framesAnalyzed flagCount : ℕ) : VideoResult :=
  let overall := videoOverall anomaly temporal compression
  { isDeepfake := decide (0.55 < overall)
    confidence := min 0.98 overall
    manipulationType := classifyManipulation anomaly temporal compression
    framesAnalyzed := framesAnalyzed
    anomalyScore := anomaly
    temporalInconsistency := temporal
    compressionArtifacts := compression
    faceInconsistencies := flagCount }

/-- `DeepfakeDetector.analyze_video` (deepfake_detector.py lines 19-127).
The argument is `none` when `cv2.VideoCapture` fails to open the file;
a zero frame count or zero frame rate raises, and the handler returns
the error record. -/
def videoAnalyze (lg : ℚ → ℚ) (loaded : Option VideoData) :
    AnalyzeOutcome VideoResult :=
  match loaded with
  | none => .err "Could not open video file" false 0
  | some v =>
      if v.frameCount = 0 ∨ v.fps = 0 then .err "Invalid video file" false 0
      else
        .ok (videoCombine (videoAvgAnomaly v.frames)
          (videoTemporalInconsistency v.frames)
          (videoAvgCompression lg v.frames) v.frames.length
          (videoFlagCount v.frames))

/-- A concrete stand-in for the numpy natural logarithm, used to
instantiate closed statements whose truth does not depend on the
logarithm's values. -/
def zeroLog : ℚ → ℚ := fun _ => 0

/-- A concrete image feature record (a degenerate all-flat image with no
faces and no metadata) used to instantiate closed statements. -/
def imageWitnessInput : ImageData :=
  ⟨0, 0, 0, 0, 0, 0, [], true, [], [], true⟩

/-- A face whose library statistics drive its artifact score to 0.6
(flagged) while remaining entirely plausible for a real detected face:
Laplacian variance 1000, Canny edge density 1/2, hue variance 20,
too small for the blocking check. -/
def flaggedFace : VFace := ⟨false, 1000, 0.5, 20, true, [], 0, 0⟩

/-- A single sampled frame in which the cascade detector found three
faces, all with `flaggedFace` statistics. -/
def flaggedFrame : VFrame := ⟨[flaggedFace, flaggedFace, flaggedFace], 0⟩

/-! ### Helper lemmas about the numpy-style aggregates -/

theorem npMean_nonneg {xs : List ℚ} (h : ∀ x ∈ xs, 0 ≤ x) : 0 ≤ npMean xs :=
  div_nonneg (List.sum_nonneg h) (Nat.cast_nonneg _)

theorem npMean_le_of_le {xs : List ℚ} {b : ℚ} (hb : 0 ≤ b)
    (h : ∀ x ∈ xs, x ≤ b) : npMean xs ≤ b := by
  rcases eq_or_ne xs [] with rfl | hne
  · simpa [npMean] using hb
  · have hpos : (0 : ℚ) < (xs.length : ℚ) := by
      exact_mod_cast List.length_pos.mpr hne
    rw [npMean, div_le_iff₀ hpos]
    have hs := List.sum_le_card_nsmul xs b h
    rwa [nsmul_eq_mul, mul_comm] at hs

theorem le_npMean_of_le {xs : List ℚ} {a : ℚ} (hne : xs ≠ [])
    (h : ∀ x ∈ xs, a ≤ x) : a ≤ npMean xs := by
  have hpos : (0 : ℚ) < (xs.length : ℚ) := by
    exact_mod_cast List.length_pos.mpr hne
  rw [npMean, le_div_iff₀ hpos]
  have hs := List.card_nsmul_le_sum xs a h
  rwa [nsmul_eq_mul, mul_comm] at hs

theorem npVar_nonneg (xs : List ℚ) : 0 ≤ npVar xs := by
  refine npMean_nonneg ?_
  intro y hy
  obtain ⟨x, -, rfl⟩ := List.mem_map.mp hy
  positivity

theorem npMean_replicate_zero (n : ℕ) : npMean (List.replicate n (0 : ℚ)) = 0 := by
  simp [npMean, List.sum_replicate]

theorem npMean_three (a b c : ℚ) : npMean [a, b, c] = (a + b + c) / 3 := by
  simp [npMean]
  ring

/-! ### Range bounds for the audio extractors -/

theorem spectralAnalysis_bounds (L : AudioLib) (audio : List ℚ) :
    0 ≤ spectralAnalysis L audio ∧ spectralAnalysis L audio ≤ 1 := by
  unfold spectralAnalysis
  dsimp only
  split_ifs with h
  · norm_num
  · exact ⟨le_min (by norm_num) (by positivity), min_le_left _ _⟩

theorem frameEnergies_nonneg (audio : List ℚ) (flen : ℕ) :
    ∀ e ∈ frameEnergies audio flen, 0 ≤ e := by
  intro e he
  obtain ⟨i, -, rfl⟩ := List.mem_map.mp he
  refine List.sum_nonneg ?_
  intro x hx
  obtain ⟨y, -, rfl⟩ := List.mem_map.mp hx
  positivity

theorem temporalAnalysis_bounds (audio : List ℚ) :
    0 ≤ temporalAnalysis audio ∧ temporalAnalysis audio ≤ 1 := by
  unfold temporalAnalysis
  dsimp only
  split_ifs with h
  · have hden : (0 : ℚ) < npMean (frameEnergies audio (sampleRate / 100)) + 1 / 1000000 := by
      have h0 : 0 ≤ npMean (frameEnergies audio (sampleRate / 100)) :=
        npMean_nonneg (frameEnergies_nonneg audio (sampleRate / 100))
      linarith
    exact ⟨le_min (by norm_num) (div_nonneg (npVar_nonneg _) hden.le), min_le_left _ _⟩
  · norm_num

theorem voiceConsistencyCheck_bounds (L : AudioLib) (audio : List ℚ) :
    0 ≤ voiceConsistencyCheck L audio ∧ voiceConsistencyCheck L audio ≤ 1 := by
  unfold voiceConsistencyCheck
  dsimp only
  split_ifs with h1 h2
  · norm_num
  · exact ⟨le_min (by norm_num) (by linarith), min_le_left _ _⟩
  · have hc := not_lt.mp h2
    exact ⟨le_max_left _ _, max_le (by norm_num) (by linarith)⟩

theorem prosodyAnalysis_bounds (audio : List ℚ) :
    0 ≤ prosodyAnalysis audio ∧ prosodyAnalysis audio ≤ 1 := by
  unfold prosodyAnalysis
  dsimp only
  split_ifs with h
  · norm_num
  · have h1 : (0 : ℚ) ≤ min 1 (|npVar (pitchTrack audio) - 300| / 300) :=
      le_min (by norm_num) (by positivity)
    have h2 : (0 : ℚ) ≤ min 1 (|npMax (pitchTrack audio) - npMin (pitchTrack audio) - 150| / 150) :=
      le_min (by norm_num) (by positivity)
    have h3 : min 1 (|npVar (pitchTrack audio) - 300| / 300) ≤ 1 := min_le_left _ _
    have h4 : min 1 (|npMax (pitchTrack audio) - npMin (pitchTrack audio) - 150| / 150) ≤ 1 :=
      min_le_left _ _
    constructor <;> linarith

theorem audioOverall_bounds {s t v p : ℚ}
    (hs : 0 ≤ s ∧ s ≤ 1) (ht : 0 ≤ t ∧ t ≤ 1)
    (hv : 0 ≤ v ∧ v ≤ 1) (hp : 0 ≤ p ∧ p ≤ 1) :
    0 ≤ audioOverall s t v p ∧ audioOverall s t v p ≤ 1 := by
  unfold audioOverall
  obtain ⟨hs0, hs1⟩ := hs
  obtain ⟨ht0, ht1⟩ := ht
  obtain ⟨hv0, hv1⟩ := hv
  obtain ⟨hp0, hp1⟩ := hp
  constructor <;> linarith

/-! ### Range bounds for the image extractors -/

theorem pixelLevelAnalysis_bounds (d : ImageData) (hd : d.Valid) :
    0 ≤ pixelLevelAnalysis d ∧ pixelLevelAnalysis d ≤ 1 := by
  obtain ⟨hl, he0, he1, -, -, -, -, -⟩ := hd
  unfold pixelLevelAnalysis
  dsimp only
  refine ⟨le_min (by norm_num) ?_, min_le_left _ _⟩
  have h1 : min 1 (d.lapVar / 1000) ≤ 1 := min_le_left _ _
  have h2 : (0 : ℚ) ≤ min 1 (|d.colorVar - 500| / 500) :=
    le_min (by norm_num) (by positivity)
  linarith

theorem frequencyDomainAnalysis_bounds (lg : ℚ → ℚ) (d : ImageData) :
    0 ≤ frequencyDomainAnalysis lg d ∧ frequencyDomainAnalysis lg d ≤ 1 := by
  unfold frequencyDomainAnalysis
  dsimp only
  exact ⟨le_min (by norm_num) (by positivity), min_le_left _ _⟩

theorem detectJpegArtifacts_bounds (d : ImageData) (hd : d.Valid) :
    0 ≤ detectJpegArtifacts d ∧ detectJpegArtifacts d ≤ 1 := by
  obtain ⟨-, -, -, -, -, -, hj, -⟩ := hd
  unfold detectJpegArtifacts
  dsimp only
  split_ifs with h1 h2
  · norm_num
  · norm_num
  · refine ⟨le_min (by norm_num) ?_, min_le_left _ _⟩
    exact div_nonneg (npMean_nonneg hj) (by norm_num)

theorem detectAiGenerated_bounds (d : ImageData) (hd : d.Valid) :
    0 ≤ detectAiGenerated d ∧ detectAiGenerated d ≤ 1 := by
  have hjp := detectJpegArtifacts_bounds d hd
  obtain ⟨-, -, -, hc, hn, hcorr, -, -⟩ := hd
  unfold detectAiGenerated
  dsimp only
  have hnoise0 : (0 : ℚ) ≤ min 1 (d.noiseVar / 50) :=
    le_min (by norm_num) (div_nonneg hn (by norm_num))
  have hnoise1 : min 1 (d.noiseVar / 50) ≤ 1 := min_le_left _ _
  have hsim : (0 : ℚ) ≤ (if d.blockCorrs = [] then 0.3
        else npMean (d.blockCorrs.map (fun c => |c|))) ∧
      (if d.blockCorrs = [] then (0.3 : ℚ)
        else npMean (d.blockCorrs.map (fun c => |c|))) ≤ 1 := by
    split_ifs with hbc
    · norm_num
    · constructor
      · refine npMean_nonneg ?_
        intro x hx
        obtain ⟨c, -, rfl⟩ := List.mem_map.mp hx
        positivity
      · refine npMean_le_of_le (by norm_num) ?_
        intro x hx
        obtain ⟨c, hcm, rfl⟩ := List.mem_map.mp hx
        exact hcorr c hcm
  have hcol0 : (0 : ℚ) ≤ min 1 (d.colorVar / 1000) :=
    le_min (by norm_num) (div_nonneg hc (by norm_num))
  have hcol1 : min 1 (d.colorVar / 1000) ≤ 1 := min_le_left _ _
  obtain ⟨hs0, hs1⟩ := hsim
  obtain ⟨hj0, hj1⟩ := hjp
  refine ⟨le_min (by norm_num) ?_, min_le_left _ _⟩
  nlinarith

theorem faceManipulationCheck_bounds (d : ImageData) (hd : d.Valid) :
    0 ≤ faceManipulationCheck d ∧ faceManipulationCheck d ≤ 1 := by
  obtain ⟨-, -, -, -, -, -, -, hf⟩ := hd
  unfold faceManipulationCheck
  dsimp only
  split_ifs with h1 h2
  · norm_num
  · norm_num
  · constructor
    · refine npMean_nonneg ?_
      intro x hx
      obtain ⟨g, -, rfl⟩ := List.mem_map.mp hx
      exact le_max_left _ _
    · refine npMean_le_of_le (by norm_num) ?_
      intro x hx
      obtain ⟨g, hg, rfl⟩ := List.mem_map.mp hx
      have hgv : 0 ≤ g.edgeVar := hf g (List.mem_of_mem_filter hg)
      refine max_le (by norm_num) ?_
      have : (0 : ℚ) ≤ g.edgeVar / 500 := div_nonneg hgv (by norm_num)
      linarith

theorem imageOverall_bounds {pixel freq ai face : ℚ}
    (hp : 0 ≤ pixel ∧ pixel ≤ 1) (hq : 0 ≤ freq ∧ freq ≤ 1)
    (ha : 0 ≤ ai ∧ ai ≤ 1) (hc : 0 ≤ face ∧ face ≤ 1) :
    0 ≤ imageOverall pixel freq ai face ∧ imageOverall pixel freq ai face ≤ 1 := by
  unfold imageOverall
  obtain ⟨h1, h2⟩ := hp
  obtain ⟨h3, h4⟩ := hq
  obtain ⟨h5, h6⟩ := ha
  obtain ⟨h7, h8⟩ := hc
  constructor <;> linarith

/-! ### Range bounds for the video extractors and aggregates -/

theorem analyzeFace_bounds (f : VFace) (hf : f.Valid) :
    0 ≤ analyzeFace f ∧ analyzeFace f ≤ 1 := by
  obtain ⟨hl, he0, he1⟩ := hf
  unfold analyzeFace
  dsimp only
  split_ifs with hemp hed
  · norm_num
  · refine ⟨le_min (by norm_num) ?_, min_le_left _ _⟩
    have h1 : min 1 (f.lapVar / 500) ≤ 1 := min_le_left _ _
    have h2 : (0 : ℚ) ≤ min 1 (|f.hueVar - 20| / 20) :=
      le_min (by norm_num) (by positivity)
    linarith
  · refine ⟨le_min (by norm_num) ?_, min_le_left _ _⟩
    have h1 : min 1 (f.lapVar / 500) ≤ 1 := min_le_left _ _
    have h2 : (0 : ℚ) ≤ min 1 (|f.hueVar - 20| / 20) :=
      le_min (by norm_num) (by positivity)
    linarith

theorem detectCompressionArtifacts_bounds (lg : ℚ → ℚ) (f : VFace) :
    0 ≤ detectCompressionArtifacts lg f ∧ detectCompressionArtifacts lg f ≤ 1 := by
  unfold detectCompressionArtifacts
  dsimp only
  split_ifs with hemp
  · norm_num
  · exact ⟨le_min (by norm_num) (abs_nonneg _), min_le_left _ _⟩

theorem videoAvgAnomaly_bounds (frames : List VFrame)
    (h : ∀ fr ∈ frames, ∀ f ∈ fr.faces, f.Valid) :
    0 ≤ videoAvgAnomaly frames ∧ videoAvgAnomaly frames ≤ 1 := by
  unfold videoAvgAnomaly
  dsimp only
  split_ifs with hemp
  · norm_num
  · have hmem : ∀ x ∈ videoAnomalyScores frames, 0 ≤ x ∧ x ≤ 1 := by
      intro x hx
      unfold videoAnomalyScores at hx
      obtain ⟨l, hl, hx⟩ := List.mem_flatten.mp hx
      obtain ⟨fr, hfr, rfl⟩ := List.mem_map.mp hl
      obtain ⟨f, hfm, rfl⟩ := List.mem_map.mp hx
      exact analyzeFace_bounds f (h fr hfr f hfm)
    exact ⟨npMean_nonneg (fun x hx => (hmem x hx).1),
      npMean_le_of_le (by norm_num) (fun x hx => (hmem x hx).2)⟩

theorem videoAvgCompression_bounds (lg : ℚ → ℚ) (frames : List VFrame) :
    0 ≤ videoAvgCompression lg frames ∧ videoAvgCompression lg frames ≤ 1 := by
  unfold videoAvgCompression
  dsimp only
  split_ifs with hemp
  · norm_num
  · have hmem : ∀ x ∈ videoCompressionScores lg frames, 0 ≤ x ∧ x ≤ 1 := by
      intro x hx
      unfold videoCompressionScores at hx
      obtain ⟨l, hl, hx⟩ := List.mem_flatten.mp hx
      obtain ⟨fr, hfr, rfl⟩ := List.mem_map.mp hl
      obtain ⟨f, hfm, rfl⟩ := List.mem_map.mp hx
      exact detectCompressionArtifacts_bounds lg f
    exact ⟨npMean_nonneg (fun x hx => (hmem x hx).1),
      npMean_le_of_le (by norm_num) (fun x hx => (hmem x hx).2)⟩

theorem videoTemporalInconsistency_nonneg (frames : List VFrame) :
    0 ≤ videoTemporalInconsistency frames :=
  div_nonneg (Nat.cast_nonneg _) (Nat.cast_nonneg _)

theorem videoTemporalInconsistency_le_one (frames : List VFrame)
    (h : videoFlagCount frames ≤ frames.length) :
    videoTemporalInconsistency frames ≤ 1 := by
  unfold videoTemporalInconsistency
  have hpos : (0 : ℚ) < ((max 1 frames.length : ℕ) : ℚ) := by
    have : (1 : ℕ) ≤ max 1 frames.length := le_max_left _ _
    exact_mod_cast Nat.lt_of_lt_of_le Nat.zero_lt_one this
  rw [div_le_one hpos]
  have hle : videoFlagCount frames ≤ max 1 frames.length :=
    le_trans h (le_max_right _ _)
  exact_mod_cast hle

theorem videoOverall_nonneg {a t c : ℚ} (ha : 0 ≤ a) (ht : 0 ≤ t) (hc : 0 ≤ c) :
    0 ≤ videoOverall a t c := by
  unfold videoOverall
  nlinarith

theorem videoOverall_le_one {a t c : ℚ} (ha : a ≤ 1) (ht : t ≤ 1) (hc : c ≤ 1) :
    videoOverall a t c ≤ 1 := by
  unfold videoOverall
  linarith

/-! ### Claim C1 -/

/-- Claim C1, amended: on every analysis that completes, all four audio
sub-scores, all four numeric image sub-scores, their fused overall
scores, and the video face-anomaly and compression sub-scores lie in
[0,1], and confidence lies in [0, 0.98] in all three modalities; the
video temporal-inconsistency sub-score and the video overall score are
non-negative, and they are bounded by 1 whenever the flagged-event count
is at most the number of frames analyzed — but a single frame can
contribute several flagged events (one per artifact-flagged face plus
one temporal flag), so the [0,1] bound claimed for them does not hold in
general (see the counterexample). -/
theorem c1_amended_score_bounds :
    (∀ (L : AudioLib) (audio : List ℚ) (r : AudioResult),
      audioAnalyze L (some audio) = .ok r →
      (0 ≤ r.spectralScore ∧ r.spectralScore ≤ 1) ∧
      (0 ≤ r.temporalScore ∧ r.temporalScore ≤ 1) ∧
      (0 ≤ r.voiceScore ∧ r.voiceScore ≤ 1) ∧
      (0 ≤ r.prosodyScore ∧ r.prosodyScore ≤ 1) ∧
      (0 ≤ audioOverall r.spectralScore r.temporalScore r.voiceScore r.prosodyScore ∧
        audioOverall r.spectralScore r.temporalScore r.voiceScore r.prosodyScore ≤ 1) ∧
      (0 ≤ r.confidence ∧ r.confidence ≤ 0.98)) ∧
    (∀ (lg : ℚ → ℚ) (d : ImageData) (r : ImageResult), d.Valid →
      imageAnalyze lg (.ok d) = .ok r →
      (0 ≤ r.pixelScore ∧ r.pixelScore ≤ 1) ∧
      (0 ≤ r.frequencyScore ∧ r.frequencyScore ≤ 1) ∧
      (0 ≤ r.aiScore ∧ r.aiScore ≤ 1) ∧
      (0 ≤ r.faceScore ∧ r.faceScore ≤ 1) ∧
      (0 ≤ imageOverall r.pixelScore r.frequencyScore r.aiScore r.faceScore ∧
        imageOverall r.pixelScore r.frequencyScore r.aiScore r.faceScore ≤ 1) ∧
      (0 ≤ r.confidence ∧ r.confidence ≤ 0.98)) ∧
    (∀ (lg : ℚ → ℚ) (v : VideoData) (r : VideoResult),
      (∀ fr ∈ v.frames, ∀ f ∈ fr.faces, f.Valid) →
      videoAnalyze lg (some v) = .ok r →
      (0 ≤ r.anomalyScore ∧ r.anomalyScore ≤ 1) ∧
      (0 ≤ r.compressionArtifacts ∧ r.compressionArtifacts ≤ 1) ∧
      0 ≤ r.temporalInconsistency ∧
      0 ≤ videoOverall r.anomalyScore r.temporalInconsistency r.compressionArtifacts ∧
      (0 ≤ r.confidence ∧ r.confidence ≤ 0.98) ∧
      (r.faceInconsistencies ≤ r.framesAnalyzed →
        r.temporalInconsistency ≤ 1 ∧
        videoOverall r.anomalyScore r.temporalInconsistency r.compressionArtifacts ≤ 1)) := by
  refine ⟨?_, ?_, ?_⟩
  · intro L audio r hok
    by_cases hlen : audio.length = 0
    · simp [audioAnalyze, hlen] at hok
    · simp only [audioAnalyze, if_neg hlen, AnalyzeOutcome.ok.injEq] at hok
      subst hok
      have hs := spectralAnalysis_bounds L audio
      have ht := temporalAnalysis_bounds audio
      have hv := voiceConsistencyCheck_bounds L audio
      have hp := prosodyAnalysis_bounds audio
      have ho := audioOverall_bounds hs ht hv hp
      exact ⟨hs, ht, hv, hp, ho, le_min (by norm_num) ho.1, min_le_left _ _⟩
  · intro lg d r hd hok
    simp only [imageAnalyze, AnalyzeOutcome.ok.injEq] at hok
    subst hok
    have hp := pixelLevelAnalysis_bounds d hd
    have hq := frequencyDomainAnalysis_bounds lg d
    have ha := detectAiGenerated_bounds d hd
    have hc := faceManipulationCheck_bounds d hd
    have ho := imageOverall_bounds hp hq ha hc
    exact ⟨hp, hq, ha, hc, ho, le_min (by norm_num) ho.1, min_le_left _ _⟩
  · intro lg v r hval hok
    by_cases hbad : v.frameCount = 0 ∨ v.fps = 0
    · simp [videoAnalyze, hbad] at hok
    · simp only [videoAnalyze, if_neg hbad, AnalyzeOutcome.ok.injEq] at hok
      subst hok
      have ha := videoAvgAnomaly_bounds v.frames hval
      have hc := videoAvgCompression_bounds lg v.frames
      have ht0 := videoTemporalInconsistency_nonneg v.frames
      refine ⟨ha, hc, ht0, videoOverall_nonneg ha.1 ht0 hc.1,
        ⟨le_min (by norm_num) (videoOverall_nonneg ha.1 ht0 hc.1), min_le_left _ _⟩, ?_⟩
      intro hcount
      have ht1 := videoTemporalInconsistency_le_one v.frames hcount
      exact ⟨ht1, videoOverall_le_one ha.2 ht1 hc.2⟩

/-- Claim C1 as stated is false: a single sampled video frame holding
three detected faces, each with valid library statistics (Laplacian
variance 1000, edge density 1/2, hue variance 20) that drive the
artifact score to 0.6 > 0.5, contributes three flagged events against
one analyzed frame.  The temporal-inconsistency sub-score is then 3 and
the fused overall score is 1.11, both outside [0,1], and the analysis
completes with exactly these values. -/
theorem c1_counterexample :
    flaggedFace.Valid ∧
    detectArtifacts flaggedFace = 0.6 ∧
    videoTemporalInconsistency [flaggedFrame] = 3 ∧
    ¬ videoTemporalInconsistency [flaggedFrame] ≤ 1 ∧
    videoOverall (videoAvgAnomaly [flaggedFrame])
      (videoTemporalInconsistency [flaggedFrame])
      (videoAvgCompression zeroLog [flaggedFrame]) = 1.11 ∧
    ¬ videoOverall (videoAvgAnomaly [flaggedFrame])
      (videoTemporalInconsistency [flaggedFrame])
      (videoAvgCompression zeroLog [flaggedFrame]) ≤ 1 ∧
    videoAnalyze zeroLog (some ⟨30, 30, [flaggedFrame]⟩) =
      .ok (videoCombine 0.15 3 0 1 3) := by
  have hart : detectArtifacts flaggedFace = 0.6 := by
    norm_num [detectArtifacts, flaggedFace, checkBlockingArtifacts, min_def]
  have htmp : videoTemporalInconsistency [flaggedFrame] = 3 := by
    norm_num [videoTemporalInconsistency, videoFlagCount, flaggedFrame, flaggedFace,
      detectArtifacts, checkBlockingArtifacts, min_def, List.filter]
  have hanom : videoAvgAnomaly [flaggedFrame] = 0.15 := by
    norm_num [videoAvgAnomaly, videoAnomalyScores, flaggedFrame, flaggedFace, analyzeFace,
      min_def, npMean, List.cons_ne_nil]
  have hcomp : videoAvgCompression zeroLog [flaggedFrame] = 0 := by
    norm_num [videoAvgCompression, videoCompressionScores, flaggedFrame, flaggedFace,
      detectCompressionArtifacts, zeroLog, min_def, npMean, List.cons_ne_nil]
  refine ⟨by norm_num [VFace.Valid, flaggedFace], hart, htmp, ?_, ?_, ?_, ?_⟩
  · rw [htmp]; norm_num
  · rw [htmp, hanom, hcomp]; norm_num [videoOverall]
  · rw [htmp, hanom, hcomp]; norm_num [videoOverall]
  · have hcount : videoFlagCount [flaggedFrame] = 3 := by
      norm_num [videoFlagCount, flaggedFrame, flaggedFace, detectArtifacts,
        checkBlockingArtifacts, min_def, List.filter]
    simp only [videoAnalyze]
    rw [if_neg (by norm_num)]
    rw [htmp, hanom, hcomp, hcount]
    rfl

/-- Witness for the amended C1: the bounds instantiated on a concrete
completed analysis in each modality. -/
theorem c1_amended_score_bounds_witness :
    (0 ≤ (audioCombine (spectralAnalysis trivAudioLib [1]) (temporalAnalysis [1])
        (voiceConsistencyCheck trivAudioLib [1]) (prosodyAnalysis [1])).confidence ∧
      (audioCombine (spectralAnalysis trivAudioLib [1]) (temporalAnalysis [1])
        (voiceConsistencyCheck trivAudioLib [1]) (prosodyAnalysis [1])).confidence ≤ 0.98) ∧
    (0 ≤ (imageCombine (pixelLevelAnalysis imageWitnessInput)
        (frequencyDomainAnalysis zeroLog imageWitnessInput)
        (detectAiGenerated imageWitnessInput)
        (faceManipulationCheck imageWitnessInput)
        imageWitnessInput.metaSuspicious).confidence ∧
      (imageCombine (pixelLevelAnalysis imageWitnessInput)
        (frequencyDomainAnalysis zeroLog imageWitnessInput)
        (detectAiGenerated imageWitnessInput)
        (faceManipulationCheck imageWitnessInput)
        imageWitnessInput.metaSuspicious).confidence ≤ 0.98) ∧
    (0 ≤ (videoCombine (videoAvgAnomaly []) (videoTemporalInconsistency [])
        (videoAvgCompression zeroLog []) 0 0).confidence ∧
      (videoCombine (videoAvgAnomaly []) (videoTemporalInconsistency [])
        (videoAvgCompression zeroLog []) 0 0).confidence ≤ 0.98) := by
  refine ⟨?_, ?_, ?_⟩
  · exact (c1_amended_score_bounds.1 trivAudioLib [1] _ (by norm_num [audioAnalyze])).2.2.2.2.2
  · refine (c1_amended_score_bounds.2.1 zeroLog imageWitnessInput _ ?_ rfl).2.2.2.2.2
    norm_num [ImageData.Valid, imageWitnessInput]
  · have hval : ∀ fr ∈ ([] : List VFrame), ∀ f ∈ fr.faces, f.Valid := by
      intro fr hfr
      simp at hfr
    have hok : videoAnalyze zeroLog (some ⟨1, 1, []⟩) =
        .ok (videoCombine (videoAvgAnomaly []) (videoTemporalInconsistency [])
          (videoAvgCompression zeroLog []) 0 0) := by
      simp only [videoAnalyze]
      rw [if_neg (by norm_num)]
      rfl
    exact (c1_amended_score_bounds.2.2 zeroLog ⟨1, 1, []⟩ _ hval hok).2.2.2.2.1

/-! ### Claim C2 -/

/-- Claim C2: the boolean verdict is a strict comparison against the
modality threshold (audio 0.55, image 0.60, video 0.55): a breakdown
fusing to exactly the threshold is classified authentic, and any
breakdown fusing strictly above it is classified a deepfake. -/
theorem c2_threshold_strict :
    (∀ s t v p : ℚ,
      (audioOverall s t v p = 0.55 → (audioCombine s t v p).isDeepfake = false) ∧
      (0.55 < audioOverall s t v p → (audioCombine s t v p).isDeepfake = true)) ∧
    (∀ (pixel freq ai face : ℚ) (meta : Bool),
      (imageOverall pixel freq ai face = 0.60 →
        (imageCombine pixel freq ai face meta).isDeepfake = false) ∧
      (0.60 < imageOverall pixel freq ai face →
        (imageCombine pixel freq ai face meta).isDeepfake = true)) ∧
    (∀ (a t c : ℚ) (n m : ℕ),
      (videoOverall a t c = 0.55 → (videoCombine a t c n m).isDeepfake = false) ∧
      (0.55 < videoOverall a t c → (videoCombine a t c n m).isDeepfake = true)) := by
  refine ⟨fun s t v p => ⟨fun h => ?_, fun h => ?_⟩,
    fun pixel freq ai face meta => ⟨fun h => ?_, fun h => ?_⟩,
    fun a t c n m => ⟨fun h => ?_, fun h => ?_⟩⟩
  · show decide (0.55 < audioOverall s t v p) = false
    rw [h]
    norm_num
  · exact decide_eq_true h
  · show decide (0.60 < imageOverall pixel freq ai face) = false
    rw [h]
    norm_num
  · exact decide_eq_true h
  · show decide (0.55 < videoOverall a t c) = false
    rw [h]
    norm_num
  · exact decide_eq_true h

/-- Witness for C2: breakdowns fusing exactly to each threshold are
classified authentic, and breakdowns fusing strictly above are
classified deepfake, in all three modalities. -/
theorem c2_threshold_strict_witness :
    (audioCombine 0.55 0.55 0.55 0.55).isDeepfake = false ∧
    (audioCombine 0.6 0.6 0.6 0.6).isDeepfake = true ∧
    (imageCombine 0.6 0.6 0.6 0.6 false).isDeepfake = false ∧
    (imageCombine 0.7 0.7 0.7 0.7 false).isDeepfake = true ∧
    (videoCombine 0.55 0.55 0.55 1 1).isDeepfake = false ∧
    (videoCombine 0.6 0.6 0.6 1 1).isDeepfake = true :=
  ⟨(c2_threshold_strict.1 0.55 0.55 0.55 0.55).1 (by norm_num [audioOverall]),
    (c2_threshold_strict.1 0.6 0.6 0.6 0.6).2 (by norm_num [audioOverall]),
    (c2_threshold_strict.2.1 0.6 0.6 0.6 0.6 false).1 (by norm_num [imageOverall]),
    (c2_threshold_strict.2.1 0.7 0.7 0.7 0.7 false).2 (by norm_num [imageOverall]),
    (c2_threshold_strict.2.2 0.55 0.55 0.55 1 1).1 (by norm_num [videoOverall]),
    (c2_threshold_strict.2.2 0.6 0.6 0.6 1 1).2 (by norm_num [videoOverall])⟩

/-! ### Claim C3 -/

/-- Claim C3: in every modality the reported confidence equals
`min 0.98 overall_score` — it is derived deterministically from the
fused overall score, not independently estimated. -/
theorem c3_confidence_derived :
    (∀ s t v p : ℚ,
      (audioCombine s t v p).confidence = min 0.98 (audioOverall s t v p)) ∧
    (∀ (pixel freq ai face : ℚ) (meta : Bool),
      (imageCombine pixel freq ai face meta).confidence =
        min 0.98 (imageOverall pixel freq ai face)) ∧
    (∀ (a t c : ℚ) (n m : ℕ),
      (videoCombine a t c n m).confidence = min 0.98 (videoOverall a t c)) :=
  ⟨fun _ _ _ _ => rfl, fun _ _ _ _ _ => rfl, fun _ _ _ _ _ => rfl⟩

/-! ### Claim C4 -/

/-- Claim C4: the video manipulation-type classifier evaluates its rules
in the fixed order face-swap, lip-sync, face-reenactment, ai-generated,
none, and whenever the conditions of several rules hold simultaneously
the earliest rule's label is returned (in particular with all four rule
conditions true at once the label is the first rule's). -/
theorem c4_manipulation_rule_order :
    ∀ a t c : ℚ,
      ((0.7 < a ∧ 0.4 < t) → classifyManipulation a t c = "face_swap") ∧
      (¬(0.7 < a ∧ 0.4 < t) → 0.5 < t → classifyManipulation a t c = "lip_sync") ∧
      (¬(0.7 < a ∧ 0.4 < t) → ¬(0.5 < t) → 0.6 < a →
        classifyManipulation a t c = "face_reenactment") ∧
      (¬(0.7 < a ∧ 0.4 < t) → ¬(0.5 < t) → ¬(0.6 < a) → 0.6 < c →
        classifyManipulation a t c = "ai_generated") ∧
      (¬(0.7 < a ∧ 0.4 < t) → ¬(0.5 < t) → ¬(0.6 < a) → ¬(0.6 < c) →
        classifyManipulation a t c = "none") ∧
      (0.7 < a → 0.4 < t → 0.5 < t → 0.6 < a → 0.6 < c →
        classifyManipulation a t c = "face_swap") := by
  intro a t c
  refine ⟨fun h1 => ?_, fun h1 h2 => ?_, fun h1 h2 h3 => ?_,
    fun h1 h2 h3 h4 => ?_, fun h1 h2 h3 h4 => ?_, fun h1 h2 h3 h4 h5 => ?_⟩
  · simp [classifyManipulation, h1]
  · simp [classifyManipulation, h1, h2]
  · simp [classifyManipulation, h1, h2, h3]
  · simp [classifyManipulation, h1, h2, h3, h4]
  · simp [classifyManipulation, h1, h2, h3, h4]
  · simp [classifyManipulation, h1, h2]

/-- Witness for C4: one concrete breakdown per rule, plus two overlap
breakdowns (face-swap and lip-sync conditions together, and all four
rule conditions together) resolved to the earlier rule. -/
theorem c4_manipulation_rule_order_witness :
    classifyManipulation 0.8 0.5 0 = "face_swap" ∧
    classifyManipulation 0 0.6 0 = "lip_sync" ∧
    classifyManipulation 0.65 0 0 = "face_reenactment" ∧
    classifyManipulation 0 0 0.7 = "ai_generated" ∧
    classifyManipulation 0 0 0 = "none" ∧
    classifyManipulation 0.8 0.6 0.7 = "face_swap" :=
  ⟨(c4_manipulation_rule_order 0.8 0.5 0).1 (by norm_num),
    (c4_manipulation_rule_order 0 0.6 0).2.1 (by norm_num) (by norm_num),
    (c4_manipulation_rule_order 0.65 0 0).2.2.1 (by norm_num) (by norm_num) (by norm_num),
    (c4_manipulation_rule_order 0 0 0.7).2.2.2.1 (by norm_num) (by norm_num)
      (by norm_num) (by norm_num),
    (c4_manipulation_rule_order 0 0 0).2.2.2.2.1 (by norm_num) (by norm_num)
      (by norm_num) (by norm_num),
    (c4_manipulation_rule_order 0.8 0.6 0.7).2.2.2.2.2 (by norm_num) (by norm_num)
      (by norm_num) (by norm_num) (by norm_num)⟩

/-! ### Claim C5 -/

theorem trivAudioLib_valid : trivAudioLib.Valid := by
  refine ⟨fun xs => by simp [trivAudioLib], fun xs m hm => ?_,
    fun n => by simp [trivAudioLib], fun xs => le_refl 0, fun n c => rfl⟩
  have := List.eq_of_mem_replicate hm
  simp [this]

/-- Claim C5: the voice-consistency extractor computes exactly the
documented formula — 2-second segmentation, fallback 0.3 below two whole
segments, consistency defined as one minus the mean cross-segment
standard deviation of the (mean, std, mean-square energy) features, and
the piecewise score rule.  (The source additionally caps the
too-consistent branch with `min 1`, which is inert because a consistency
value never exceeds 1 when standard deviations are non-negative.) -/
theorem c5_voice_consistency_formula (L : AudioLib) (audio : List ℚ)
    (hL : L.Valid) :
    voiceConsistencyCheck L audio = voiceConsistencySpec L audio := by
  obtain ⟨-, -, -, hstd, -⟩ := hL
  unfold voiceConsistencyCheck voiceConsistencySpec
  dsimp only
  by_cases h2 : audio.length / (sampleRate * 2) < 2
  · rw [if_pos h2, if_pos h2]
  · rw [if_neg h2, if_neg h2]
    have h3 : List.range 3 = [0, 1, 2] := rfl
    rw [h3]
    simp only [List.map_cons, List.map_nil, List.map_map]
    have hA : ((fun f => List.getD f 0 (0 : ℚ)) ∘ (fun i =>
        [npMean (audioSegment audio i), L.std (audioSegment audio i),
          npMean ((audioSegment audio i).map (fun x => x ^ 2))]))
        = fun i => npMean (audioSegment audio i) := rfl
    have hB : ((fun f => List.getD f 1 (0 : ℚ)) ∘ (fun i =>
        [npMean (audioSegment audio i), L.std (audioSegment audio i),
          npMean ((audioSegment audio i).map (fun x => x ^ 2))]))
        = fun i => L.std (audioSegment audio i) := rfl
    have hC : ((fun f => List.getD f 2 (0 : ℚ)) ∘ (fun i =>
        [npMean (audioSegment audio i), L.std (audioSegment audio i),
          npMean ((audioSegment audio i).map (fun x => x ^ 2))]))
        = fun i => npMean ((audioSegment audio i).map (fun x => x ^ 2)) := rfl
    rw [hA, hB, hC, npMean_three]
    set M := (List.range (audio.length / (sampleRate * 2))).map
      (fun i => npMean (audioSegment audio i)) with hM
    set S := (List.range (audio.length / (sampleRate * 2))).map
      (fun i => L.std (audioSegment audio i)) with hS
    set E := (List.range (audio.length / (sampleRate * 2))).map
      (fun i => npMean ((audioSegment audio i).map (fun x => x ^ 2))) with hE
    by_cases h95 : (0.95 : ℚ) < 1 - (L.std M + L.std S + L.std E) / 3
    · rw [if_pos h95, if_pos h95]
      refine min_eq_right ?_
      have hm := hstd M
      have hs := hstd S
      have he := hstd E
      have : (0 : ℚ) ≤ (L.std M + L.std S + L.std E) / 3 := by positivity
      linarith
    · rw [if_neg h95, if_neg h95]

/-- Witness for C5: the equality instantiated on a concrete library and
waveform (the empty waveform, which takes the fallback branch). -/
theorem c5_voice_consistency_formula_witness :
    voiceConsistencyCheck trivAudioLib [] = voiceConsistencySpec trivAudioLib [] :=
  c5_voice_consistency_formula trivAudioLib [] trivAudioLib_valid

/-! ### Claim C6 -/

theorem zipWith_mul_replicate_zero (n : ℕ) (ys : List ℚ) :
    (List.zipWith (fun m f => m * f) (List.replicate n (0 : ℚ)) ys).sum = 0 := by
  induction n generalizing ys with
  | zero => simp
  | succ k ih =>
    cases ys with
    | nil => simp
    | cons y ys => simpa [List.replicate_succ] using ih ys

theorem spectralCentroid_zero (n : ℕ) (freqs : List ℚ) :
    spectralCentroid (List.replicate n (0 : ℚ)) freqs = 0 := by
  unfold spectralCentroid
  rw [zipWith_mul_replicate_zero]
  simp

theorem spectralRolloff_zero :
    spectralRolloff (List.replicate 40000 (0 : ℚ)) (audioFreqs 80000) = 0 := by
  unfold spectralRolloff
  have hrange : List.range 40000 = 0 :: (List.range 39999).map Nat.succ := by
    rw [show (40000 : ℕ) = 39999 + 1 from rfl, List.range_succ_eq_map]
  rw [List.length_replicate, hrange, List.find?_cons_of_pos]
  · rw [Option.map_some', Option.getD_some]
    unfold audioFreqs
    rw [show (80000 : ℕ) / 2 = 40000 from rfl, hrange, List.map_cons,
      List.getD_cons_zero]
    norm_num
  · show decide ((0.85 : ℚ) * (List.replicate 40000 (0 : ℚ)).sum ≤
      ((List.replicate 40000 (0 : ℚ)).take (0 + 1)).sum) = true
    rw [List.take_replicate, List.sum_replicate, List.sum_replicate]
    simp

/-- On the 5-second silent waveform the half-spectrum is zero, so the
centroid and the rolloff are both 0 Hz and the spectral anomaly score is
exactly 1. -/
theorem spectralAnalysis_silent (L : AudioLib) (hL : L.Valid) :
    spectralAnalysis L (List.replicate 80000 0) = 1 := by
  obtain ⟨-, -, hzero, -, -⟩ := hL
  have hm : L.fftMag (List.replicate 80000 (0 : ℚ)) = List.replicate 40000 0 := by
    have h := hzero 80000
    rwa [show (80000 : ℕ) / 2 = 40000 from rfl] at h
  have hne : (List.replicate 40000 (0 : ℚ)) ≠ [] := by
    rw [ne_eq, List.replicate_eq_nil_iff]
    norm_num
  unfold spectralAnalysis
  dsimp only
  rw [hm, if_neg hne, List.length_replicate, spectralCentroid_zero,
    spectralRolloff_zero]
  norm_num

/-- On the 5-second silent waveform the segmentation yields exactly two
(identical, all-zero) segments, every feature and every cross-segment
standard deviation is 0, consistency is 1, and the too-consistent branch
returns 1 (not the fallback 0.3, which requires fewer than two whole
segments). -/
theorem voiceConsistency_silent (L : AudioLib) (hL : L.Valid) :
    voiceConsistencyCheck L (List.replicate 80000 0) = 1 := by
  obtain ⟨-, -, -, -, hstdc⟩ := hL
  unfold voiceConsistencyCheck
  dsimp only
  rw [List.length_replicate, show (80000 : ℕ) / (sampleRate * 2) = 2 from rfl,
    if_neg (by norm_num)]
  have hseg : ∀ i ∈ List.range 2,
      audioSegment (List.replicate 80000 (0 : ℚ)) i = List.replicate 32000 0 := by
    intro i hi
    have hi2 := List.mem_range.mp hi
    unfold audioSegment
    interval_cases i <;>
      · rw [List.drop_replicate, List.take_replicate]
        norm_num [sampleRate]
  have hfeat : (List.range 2).map (fun i =>
      [npMean (audioSegment (List.replicate 80000 (0 : ℚ)) i),
        L.std (audioSegment (List.replicate 80000 (0 : ℚ)) i),
        npMean ((audioSegment (List.replicate 80000 (0 : ℚ)) i).map (fun x => x ^ 2))])
      = [[0, 0, 0], [0, 0, 0]] := by
    rw [show List.range 2 = [0, 1] from rfl, List.map_cons, List.map_cons,
      List.map_nil]
    rw [hseg 0 (by simp), hseg 1 (by simp)]
    norm_num [List.map_replicate, npMean_replicate_zero, hstdc]
  rw [hfeat]
  have hcol : ∀ j : ℕ, (([[0, 0, 0], [0, 0, 0]] : List (List ℚ)).map
      (fun f => f.getD j 0)) = List.replicate 2 (([0, 0, 0] : List ℚ).getD j 0) :=
    fun j => rfl
  simp only [hcol, hstdc]
  rw [List.map_const', List.length_range, npMean_replicate_zero]
  norm_num [min_self]

/-- Claim C6, amended: on the silent 5-second 16 kHz all-zero waveform
the spectral extractor's centroid and rolloff both compute as 0 Hz and
its deviation score is exactly 1 (maximal), but the voice-consistency
extractor does not fall back to 0.3: the waveform yields exactly two
whole 2-second segments (not fewer), all cross-segment feature standard
deviations vanish, consistency is 1 > 0.95, and the extractor returns
1.0 through its too-consistent branch. -/
theorem c6_amended_silent_audio (L : AudioLib) (hL : L.Valid) :
    spectralCentroid (L.fftMag (List.replicate 80000 0)) (audioFreqs 80000) = 0 ∧
    spectralRolloff (L.fftMag (List.replicate 80000 0)) (audioFreqs 80000) = 0 ∧
    spectralAnalysis L (List.replicate 80000 0) = 1 ∧
    (List.replicate 80000 (0 : ℚ)).length / (sampleRate * 2) = 2 ∧
    voiceConsistencyCheck L (List.replicate 80000 0) = 1 := by
  have hm : L.fftMag (List.replicate 80000 (0 : ℚ)) = List.replicate 40000 0 := by
    have h := hL.2.2.1 80000
    rwa [show (80000 : ℕ) / 2 = 40000 from rfl] at h
  refine ⟨?_, ?_, spectralAnalysis_silent L hL, ?_, voiceConsistency_silent L hL⟩
  · rw [hm]
    exact spectralCentroid_zero 40000 (audioFreqs 80000)
  · rw [hm]
    exact spectralRolloff_zero
  · rw [List.length_replicate]
    rfl

/-- Claim C6 as stated is false on the voice-consistency part: the
silent 5-second waveform gives the extractor two whole segments, so it
does not take its fewer-than-two-segments fallback 0.3; it returns 1
(the too-consistent branch).  Instantiated at a concrete library that
agrees with numpy on all the inputs involved (standard deviations of
constant arrays are zero). -/
theorem c6_counterexample :
    voiceConsistencyCheck trivAudioLib (List.replicate 80000 0) = 1 ∧
    ¬ voiceConsistencyCheck trivAudioLib (List.replicate 80000 0) = 0.3 := by
  have h := voiceConsistency_silent trivAudioLib trivAudioLib_valid
  refine ⟨h, ?_⟩
  rw [h]
  norm_num

/-- Witness for the amended C6 at the concrete library. -/
theorem c6_amended_silent_audio_witness :
    spectralAnalysis trivAudioLib (List.replicate 80000 0) = 1 ∧
    voiceConsistencyCheck trivAudioLib (List.replicate 80000 0) = 1 :=
  ⟨(c6_amended_silent_audio trivAudioLib trivAudioLib_valid).2.2.1,
    (c6_amended_silent_audio trivAudioLib trivAudioLib_valid).2.2.2.2⟩

/-! ### Claim C7 -/

/-- Claim C7: undecodable or empty media — and nothing else — is
pipeline-fatal: each modality's entry point returns (never raises) the
distinguished error record carrying the exception message together with
`is_deepfake = false` and `confidence = 0`, while every decodable
non-empty input completes with an ok result. -/
theorem c7_decode_error_result :
    (∀ L : AudioLib, audioAnalyze L none = .err "Could not load audio file" false 0) ∧
    (∀ L : AudioLib,
      audioAnalyze L (some []) = .err "Could not load audio file" false 0) ∧
    (∀ (L : AudioLib) (audio : List ℚ), audio ≠ [] →
      ∃ r, audioAnalyze L (some audio) = .ok r) ∧
    (∀ (lg : ℚ → ℚ) (msg : String),
      imageAnalyze lg (.error msg) = .err msg false 0) ∧
    (∀ (lg : ℚ → ℚ) (d : ImageData), ∃ r, imageAnalyze lg (.ok d) = .ok r) ∧
    (∀ lg : ℚ → ℚ, videoAnalyze lg none = .err "Could not open video file" false 0) ∧
    (∀ (lg : ℚ → ℚ) (v : VideoData), v.frameCount = 0 ∨ v.fps = 0 →
      videoAnalyze lg (some v) = .err "Invalid video file" false 0) ∧
    (∀ (lg : ℚ → ℚ) (v : VideoData), v.frameCount ≠ 0 → v.fps ≠ 0 →
      ∃ r, videoAnalyze lg (some v) = .ok r) := by
  refine ⟨fun L => rfl, fun L => rfl, fun L audio h => ?_,
    fun lg msg => rfl, fun lg d => ⟨_, rfl⟩, fun lg => rfl,
    fun lg v h => ?_, fun lg v h1 h2 => ?_⟩
  · have hok : audioAnalyze L (some audio) =
        .ok (audioCombine (spectralAnalysis L audio) (temporalAnalysis audio)
          (voiceConsistencyCheck L audio) (prosodyAnalysis audio)) := by
      simp only [audioAnalyze]
      rw [if_neg (by simpa [List.length_eq_zero] using h)]
    exact ⟨_, hok⟩
  · simp only [videoAnalyze]
    rw [if_pos h]
  · have hok : videoAnalyze lg (some v) =
        .ok (videoCombine (videoAvgAnomaly v.frames)
          (videoTemporalInconsistency v.frames)
          (videoAvgCompression lg v.frames) v.frames.length
          (videoFlagCount v.frames)) := by
      simp only [videoAnalyze]
      rw [if_neg (not_or.mpr ⟨h1, h2⟩)]
    exact ⟨_, hok⟩

/-- Witness for C7: concrete fatal and non-fatal inputs per modality. -/
theorem c7_decode_error_result_witness :
    audioAnalyze trivAudioLib none = .err "Could not load audio file" false 0 ∧
    audioAnalyze trivAudioLib (some []) = .err "Could not load audio file" false 0 ∧
    (∃ r, audioAnalyze trivAudioLib (some [1]) = .ok r) ∧
    imageAnalyze zeroLog (.error "cannot identify image file") =
      .err "cannot identify image file" false 0 ∧
    (∃ r, imageAnalyze zeroLog (.ok imageWitnessInput) = .ok r) ∧
    videoAnalyze zeroLog none = .err "Could not open video file" false 0 ∧
    videoAnalyze zeroLog (some ⟨0, 30, []⟩) = .err "Invalid video file" false 0 ∧
    (∃ r, videoAnalyze zeroLog (some ⟨1, 1, []⟩) = .ok r) :=
  ⟨c7_decode_error_result.1 trivAudioLib,
    c7_decode_error_result.2.1 trivAudioLib,
    c7_decode_error_result.2.2.1 trivAudioLib [1] (by simp),
    c7_decode_error_result.2.2.2.1 zeroLog "cannot identify image file",
    c7_decode_error_result.2.2.2.2.1 zeroLog imageWitnessInput,
    c7_decode_error_result.2.2.2.2.2.1 zeroLog,
    c7_decode_error_result.2.2.2.2.2.2.1 zeroLog ⟨0, 30, []⟩ (Or.inl rfl),
    c7_decode_error_result.2.2.2.2.2.2.2 zeroLog ⟨1, 1, []⟩ (by norm_num) (by norm_num)⟩

/-! ### Claim C8 -/

theorem everyNth_mem (xs : List ℚ) (s : ℕ) :
    ∀ y ∈ everyNth xs s, y ∈ xs ∨ y = 0 := by
  intro y hy
  unfold everyNth at hy
  obtain ⟨i, -, rfl⟩ := List.mem_map.mp hy
  by_cases hlt : i * s < xs.length
  · left
    rw [List.getD_eq_getElem _ _ hlt]
    exact List.getElem_mem hlt
  · right
    exact List.getD_eq_default _ _ (le_of_not_lt hlt)

/-- Claim C8, amended: the wave-path loader divides 16-bit samples by
32767 (the int16 maximum) and byte samples by 255, so every produced
sample lies in [-32768/32767, 1].  The left endpoint is strictly below
-1: a 16-bit sample of -32768 (which int16 admits) normalizes to
-32768/32767, so the claimed [-1, 1] containment fails exactly there;
8-bit input stays within [0, 1]. -/
theorem c8_amended_sample_bounds (w : WaveFile)
    (h16 : w.sampWidth = 2 → ∀ x ∈ w.samples, -32768 ≤ x ∧ x < 32768)
    (h8 : w.sampWidth ≠ 2 → ∀ x ∈ w.samples, 0 ≤ x ∧ x < 256) :
    ∀ y ∈ loadAudio w, -(32768 / 32767) ≤ y ∧ y ≤ 1 := by
  have hn : ∀ y ∈ (if w.sampWidth = 2
      then w.samples.map (fun x : ℤ => (x : ℚ) / 32767)
      else w.samples.map (fun x : ℤ => (x : ℚ) / 255)),
      -(32768 / 32767 : ℚ) ≤ y ∧ y ≤ 1 := by
    intro y hy
    split_ifs at hy with hw
    · obtain ⟨x, hx, rfl⟩ := List.mem_map.mp hy
      obtain ⟨hx1, hx2⟩ := h16 hw x hx
      have hq1 : (-32768 : ℚ) ≤ (x : ℚ) := by exact_mod_cast hx1
      have hx3 : x ≤ 32767 := by omega
      have hq2 : (x : ℚ) ≤ (32767 : ℚ) := by exact_mod_cast hx3
      constructor
      · calc -(32768 / 32767 : ℚ) = (-32768 : ℚ) / 32767 := by norm_num
          _ ≤ (x : ℚ) / 32767 := by gcongr
      · calc (x : ℚ) / 32767 ≤ (32767 : ℚ) / 32767 := by gcongr
          _ = 1 := by norm_num
    · obtain ⟨x, hx, rfl⟩ := List.mem_map.mp hy
      obtain ⟨hx1, hx2⟩ := h8 hw x hx
      have hq1 : (0 : ℚ) ≤ (x : ℚ) := by exact_mod_cast hx1
      have hx3 : x ≤ 255 := by omega
      have hq2 : (x : ℚ) ≤ (255 : ℚ) := by exact_mod_cast hx3
      constructor
      · have h0 : (0 : ℚ) ≤ (x : ℚ) / 255 := div_nonneg hq1 (by norm_num)
        have : -(32768 / 32767 : ℚ) ≤ 0 := by norm_num
        linarith
      · calc (x : ℚ) / 255 ≤ (255 : ℚ) / 255 := by gcongr
          _ = 1 := by norm_num
  intro y hy
  unfold loadAudio at hy
  dsimp only at hy
  by_cases hf : w.frameRate ≠ sampleRate
  · rw [if_pos hf] at hy
    rcases everyNth_mem _ _ y hy with hmem | rfl
    · exact hn y hmem
    · constructor <;> norm_num
  · rw [if_neg hf] at hy
    exact hn y hy

/-- Claim C8 as stated is false: a decodable 16-bit wave file consisting
of the single sample -32768 (the int16 minimum) is normalized by
division by 32767 to -32768/32767, which is strictly below -1, so the
produced waveform does not lie within [-1, 1]. -/
theorem c8_counterexample :
    loadAudio ⟨16000, 2, [-32768]⟩ = [-32768 / 32767] ∧
    ¬ (-1 : ℚ) ≤ -32768 / 32767 := by
  constructor
  · unfold loadAudio
    norm_num [sampleRate]
  · norm_num

/-- Witness for the amended C8 on a concrete one-sample 16-bit file. -/
theorem c8_amended_sample_bounds_witness :
    -(32768 / 32767 : ℚ) ≤ 0 ∧ (0 : ℚ) ≤ 1 := by
  refine c8_amended_sample_bounds ⟨16000, 2, [0]⟩ ?_ ?_ 0 ?_
  · intro _ x hx
    rw [List.mem_singleton] at hx
    subst hx
    constructor <;> norm_num
  · intro h
    exact absurd rfl h
  · unfold loadAudio
    norm_num [sampleRate]

/-! ### Claim C9 -/

/-- Claim C9: the audio voice-consistency sub-score never lies in
(0.5, 0.95]: it is at most 0.5 (the non-suspicious branch caps at
(0.95 - 0.7) * 2 = 0.5 and the fallback is 0.3), or strictly above
0.95 (the too-consistent branch). -/
theorem c9_voice_score_gap (L : AudioLib) (audio : List ℚ) :
    voiceConsistencyCheck L audio ≤ 0.5 ∨
      0.95 < voiceConsistencyCheck L audio := by
  unfold voiceConsistencyCheck
  dsimp only
  split_ifs with h1 h2
  · left
    norm_num
  · right
    exact lt_min (by norm_num) h2
  · left
    have hc := not_lt.mp h2
    exact max_le (by norm_num) (by linarith)

/-! ### Claim C10 -/

/-- Claim C10: the manipulation-type label is computed from the
sub-scores alone, independently of the boolean verdict: the breakdown
with spectral score 0.5 and all other sub-scores 0 yields a result that
is not flagged as deepfake yet carries the label "edited" rather than
"authentic". -/
theorem c10_verdict_independent_label :
    ∃ s t v p : ℚ, (audioCombine s t v p).isDeepfake = false ∧
      (audioCombine s t v p).manipulationType = "edited" ∧
      (audioCombine s t v p).manipulationType ≠ "authentic" := by
  refine ⟨0.5, 0, 0, 0, ?_, ?_, ?_⟩
  · show decide (0.55 < audioOverall 0.5 0 0 0) = false
    norm_num [audioOverall, decide_eq_false_iff_not]
  · show classifyAudioType 0.5 0 = "edited"
    norm_num [classifyAudioType]
  · show classifyAudioType 0.5 0 ≠ "authentic"
    rw [show classifyAudioType 0.5 0 = "edited" by norm_num [classifyAudioType]]
    decide

end Anohra
